import Mathlib

/-!
Verification of the speech-to-text service core (repository MarcHumet/speech-to-text)
against its natural-language specification.

The Python modules under src/stt_service are shallowly embedded below:

* core/engine.py       : DummyEngine, WhisperEngine, FasterWhisperEngine, create_engine
* core/audio_capture.py: AudioCapture record loop and record_until_silence
* output/keyboard.py   : KeyboardHandler, ClipboardHandler, CompositeHandler
* service.py           : STTService trigger callback (_on_trigger, _process_audio)

Audio samples are modelled as rationals (the float32 values of the source; the
properties proved are ordering and scaling facts that hold identically for the
float arithmetic on the concrete inputs used).  Python exceptions are modelled
by an explicit error type carried in Except; the external libraries (whisper,
faster_whisper, sounddevice, pynput, pyperclip) are modelled as oracles, that
is, parameters supplying the outcome of each external call.
-/

/-- Kinds of Python exceptions raised or caught by the embedded modules.
All of them are subclasses of Exception in the source (so an except-Exception
clause catches every one of them). -/
inductive PyKind where
  | runtimeError
  | attributeError
  | valueError
  | memoryError
  | otherError
deriving DecidableEq, Repr

/-- A Python exception: its class together with the text str(e). -/
structure PyErr where
  kind : PyKind
  msg : String
deriving DecidableEq, Repr

/-- Substring test, modelling the Python expression (pat in s). -/
def strContains (s pat : String) : Bool :=
  decide (pat.toList <:+: s.toList)

/-- The Python method str.lower(), as a character-wise map (the tags and
messages it is applied to are ASCII). -/
def pyLower (s : String) : String :=
  ⟨s.data.map Char.toLower⟩

/-- A numpy array as used by the engines: one-dimensional (shape (n,)) or
two-dimensional (shape (frames, channels), a list of frames). -/
inductive NpArray where
  | one : List ℚ → NpArray
  | two : List (List ℚ) → NpArray
deriving DecidableEq, Repr

/-- len(a): the first dimension (number of frames). -/
def npLen : NpArray → ℕ
  | .one l => l.length
  | .two ls => ls.length

/-- a[:k]: truncation to the first k frames. -/
def npTake (k : ℕ) : NpArray → NpArray
  | .one l => .one (l.take k)
  | .two ls => .two (ls.take k)

/-- All elements of the array, row-major. -/
def npElems : NpArray → List ℚ
  | .one l => l
  | .two ls => ls.flatten

/-- a.flatten() (row-major), also the identity on one-dimensional arrays. -/
def npFlatten (a : NpArray) : List ℚ :=
  npElems a

/-- Elementwise division of the array by a scalar. -/
def npScalarDiv (a : NpArray) (q : ℚ) : NpArray :=
  match a with
  | .one l => .one (l.map (· / q))
  | .two ls => .two (ls.map (fun r => r.map (· / q)))

/-- a.max(): numpy raises ValueError on a zero-size array. -/
def npMax (a : NpArray) : Except PyErr ℚ :=
  match npElems a with
  | [] => .error ⟨.valueError, "zero-size array to reduction operation maximum"⟩
  | x :: xs => .ok (xs.foldl max x)

/-- a.min(): numpy raises ValueError on a zero-size array. -/
def npMin (a : NpArray) : Except PyErr ℚ :=
  match npElems a with
  | [] => .error ⟨.valueError, "zero-size array to reduction operation minimum"⟩
  | x :: xs => .ok (xs.foldl min x)

/-- np.mean(ls, axis=1): the per-frame mean of the channels. -/
def npMeanAxis1 (ls : List (List ℚ)) : List ℚ :=
  ls.map (fun r => r.sum / (r.length : ℚ))

/-- audio.shape[1] of a two-dimensional array (numpy arrays are rectangular,
so the width is the length of the first row). -/
def npShape1 (ls : List (List ℚ)) : ℕ :=
  (ls.head?.map List.length).getD 0

/-- np.abs(a): elementwise absolute value. -/
def npAbs : NpArray → NpArray
  | .one l => .one (l.map (|·|))
  | .two ls => .two (ls.map (fun r => r.map (|·|)))

/-! ## core/engine.py -/

/-- The eight-digit whisper sample cap: 16000 * 10 samples (ten seconds at the
assumed 16 kHz rate), used by both model-backed engines. -/
def whisperMaxSamples : ℕ := 16000 * 10

/-- DummyEngine state: the ready flag and the transcription counter. -/
structure DummyE where
  ready : Bool
  transcriptionCount : ℕ
deriving DecidableEq, Repr

/-- A fresh DummyEngine (DummyEngine.__init__). -/
def dummyInit : DummyE := ⟨false, 0⟩

/-- DummyEngine.is_ready. -/
def dummyIsReady (e : DummyE) : Bool := e.ready

/-- DummyEngine.load_model: always succeeds and marks the engine ready. -/
def dummyLoadModel (e : DummyE) : DummyE := { e with ready := true }

/-- The three bucket texts of DummyEngine.transcribe.  The third bucket
interpolates the duration; its decimal rendering is abstracted by toString
(no claim inspects the success text). -/
def dummyBucketText (langText : String) (duration : ℚ) : String :=
  if duration < 1 then "[Dummy " ++ langText ++ "]: Short utterance"
  else if duration < 3 then "[Dummy " ++ langText ++ "]: Medium length speech detected"
  else "[Dummy " ++ langText ++ "]: Long speech detected, duration: " ++ toString duration ++ "s"

/-- DummyEngine.transcribe.  The counter is incremented before the readiness
check, exactly as in the source; a not-ready engine then raises RuntimeError. -/
def dummyTranscribe (e : DummyE) (audio : Option NpArray) (language : Option String) :
    DummyE × Except PyErr String :=
  let e1 := { e with transcriptionCount := e.transcriptionCount + 1 }
  if e1.ready = false then
    (e1, .error ⟨.runtimeError, "Model not loaded"⟩)
  else
    let audioLength : ℕ := match audio with | none => 0 | some a => npLen a
    let duration : ℚ := (audioLength : ℚ) / 16000
    let langText := language.getD "unknown"
    (e1, .ok (dummyBucketText langText duration))

/-- The whisper model object returned by whisper.load_model, as an oracle:
model.transcribe maps the delivered 1-D sample list and the language option to
the text of the result (or to a raised exception). -/
structure WhisperModelO where
  transcribeFn : List ℚ → Option String → Except PyErr String

/-- WhisperEngine state. -/
structure WhisperE where
  ready : Bool
  model : Option WhisperModelO

/-- A fresh WhisperEngine (WhisperEngine.__init__). -/
def whisperInit : WhisperE := ⟨false, none⟩

/-- WhisperEngine.is_ready. -/
def whisperIsReady (e : WhisperE) : Bool := e.ready

/-- WhisperEngine.load_model.  importOk models the availability of the
openai-whisper package; loadRes models the outcome of whisper.load_model.
Returns the engine state after the call and the exception it raises, if any
(an ImportError is converted to a RuntimeError with an install hint; any other
load failure is logged and re-raised). -/
def whisperLoadModel (importOk : Bool) (loadRes : Except PyErr WhisperModelO)
    (e : WhisperE) : WhisperE × Option PyErr :=
  if importOk = false then
    (e, some ⟨.runtimeError, "Install openai-whisper: pip install openai-whisper"⟩)
  else
    match loadRes with
    | .ok m => ({ ready := true, model := some m }, none)
    | .error ex => (e, some ex)

/-- The fixed text WhisperEngine.transcribe returns on a caught memory
failure. -/
def whisperMemoryText : String := "[Memory Error: Audio too long or system low on RAM]"

/-- The message test of the WhisperEngine except clause: true when str(e)
contains "allocate memory" or str(e).lower() contains "out of memory". -/
def whisperMemMsg (msg : String) : Bool :=
  strContains msg "allocate memory" || strContains (pyLower msg) "out of memory"

/-- The except-Exception clause of WhisperEngine.transcribe: memory failures
yield the fixed marker text, every other caught failure yields the empty
string; nothing propagates. -/
def whisperCatch (ex : PyErr) : Except PyErr String :=
  if whisperMemMsg ex.msg then .ok whisperMemoryText else .ok ""

/-- The body of the try block of WhisperEngine.transcribe up to the model
call: truncate to ten seconds, (float32 conversion is the identity here),
rescale by the maximal absolute value when some sample is outside [-1, 1],
then flatten a multi-channel buffer to one dimension.  The result is the
sample list delivered to the whisper model.  numpy max/min raise ValueError
on an empty array. -/
def whisperPreprocess (audio : NpArray) : Except PyErr (List ℚ) :=
  let a := npTake whisperMaxSamples audio
  match npMax a, npMin a with
  | .ok mx, .ok mn =>
    .ok (npFlatten (if mx > 1 ∨ mn < -1 then npScalarDiv a (max |mx| |mn|) else a))
  | .error ex, _ => .error ex
  | _, .error ex => .error ex

/-- WhisperEngine.transcribe: raise RuntimeError when not ready or the model
is absent, otherwise run the try block, strip the model text, and convert any
caught exception through the except clause. -/
def whisperTranscribe (e : WhisperE) (audio : NpArray) (language : Option String) :
    Except PyErr String :=
  match e.ready, e.model with
  | true, some m =>
    match whisperPreprocess audio with
    | .error ex => whisperCatch ex
    | .ok samples =>
      match m.transcribeFn samples language with
      | .ok text => .ok text.trim
      | .error ex => whisperCatch ex
  | _, _ => .error ⟨.runtimeError, "Whisper model not loaded"⟩

/-- The faster_whisper model object, as an oracle: model.transcribe maps the
delivered 1-D sample list and the language to the list of segment texts (or
to a raised exception). -/
structure FWModelO where
  transcribeFn : List ℚ → Option String → Except PyErr (List String)

/-- FasterWhisperEngine state. -/
structure FWEngine where
  ready : Bool
  model : Option FWModelO
  modelPath : Option String
  device : Option String
  computeType : Option String

/-- A fresh FasterWhisperEngine (FasterWhisperEngine.__init__). -/
def fwInit : FWEngine := ⟨false, none, none, none, none⟩

/-- FasterWhisperEngine.is_ready. -/
def fwIsReady (e : FWEngine) : Bool := e.ready

/-- FasterWhisperEngine.load_model.  importOk models availability of the
faster-whisper package; gpuRes and cpuRes model the two WhisperModel
constructor attempts (GPU first, CPU fallback).  Field assignments that the
source performs before a failing call survive it, exactly as attribute
assignments do in Python. -/
def fwLoadModel (importOk : Bool) (gpuRes cpuRes : Except PyErr FWModelO)
    (modelPath : String) (e : FWEngine) : FWEngine × Option PyErr :=
  if importOk = false then
    (e, some ⟨.runtimeError, "Install faster-whisper: uv add faster-whisper"⟩)
  else
    let e1 := { e with modelPath := some modelPath }
    match gpuRes with
    | .ok m =>
      ({ e1 with device := some "cuda", computeType := some "float16",
                 model := some m, ready := true }, none)
    | .error _ =>
      match cpuRes with
      | .ok m =>
        ({ e1 with device := some "cpu", computeType := some "int8",
                   model := some m, ready := true }, none)
      | .error ex =>
        ({ e1 with device := some "cpu", computeType := some "int8" }, some ex)

/-- The first statement of FasterWhisperEngine.transcribe is the call
self._ensure_model_loaded().  No method or attribute of that name is defined
anywhere in the source (neither on FasterWhisperEngine nor on STTEngine), so
the attribute lookup raises AttributeError before anything else runs. -/
def fwAttrError : PyErr :=
  ⟨.attributeError, "FasterWhisperEngine object has no attribute _ensure_model_loaded"⟩

/-- The call self._ensure_model_loaded(), which raises the AttributeError
above. -/
def fwEnsureModelLoaded : Except PyErr Unit :=
  .error fwAttrError

/-- Channel handling of FasterWhisperEngine.transcribe: a (n, 1) array is
flattened, a wider two-dimensional array is averaged over the channels. -/
def fwMono (a : NpArray) : NpArray :=
  match a with
  | .one l => .one l
  | .two ls => if npShape1 ls = 1 then .one ls.flatten else .one (npMeanAxis1 ls)

/-- The try block of FasterWhisperEngine.transcribe after the readiness
check: mono conversion, ten-second truncation, 50 MB size check (float32,
4 bytes per sample), empty check, normalization or silence check, then the
model call and the joining of the segments.  Every caught exception
(MemoryError, RuntimeError, or any other) makes the handlers return the
empty string. -/
def fwTranscribeTry (m : FWModelO) (audio : NpArray) (language : Option String) :
    Except PyErr String :=
  let a1 := fwMono audio
  let a2 := npTake whisperMaxSamples a1
  let res : Except PyErr String :=
    if npLen a2 * 4 > 50 * 1024 * 1024 then .ok ""
    else if npLen a2 = 0 then .ok ""
    else
      match npMax (npAbs a2) with
      | .error ex => .error ex
      | .ok audioMax =>
        let a3 := if audioMax > 1 then npScalarDiv a2 audioMax else a2
        if audioMax = 0 then .ok ""
        else
          match m.transcribeFn (npFlatten a3) language with
          | .ok segments => .ok ((String.intercalate " " segments).trim)
          | .error ex => .error ex
  match res with
  | .ok t => .ok t
  | .error _ => .ok ""

/-- FasterWhisperEngine.transcribe: the undefined self._ensure_model_loaded()
call comes first (and always raises), then the readiness check, then the try
block. -/
def fwTranscribe (e : FWEngine) (audio : NpArray) (language : Option String) :
    Except PyErr String := do
  fwEnsureModelLoaded
  match e.ready, e.model with
  | true, some m => fwTranscribeTry m audio language
  | _, _ => .error ⟨.runtimeError, "Faster Whisper model not loaded"⟩

/-- The engine value produced by create_engine. -/
inductive Engine where
  | dummy : DummyE → Engine
  | whisper : WhisperE → Engine
  | fw : FWEngine → Engine

/-- Oracles for the load attempts create_engine may perform. -/
structure LoadCtx where
  whisperImportOk : Bool
  whisperLoadRes : Except PyErr WhisperModelO
  fwImportOk : Bool
  fwGpuRes : Except PyErr FWModelO
  fwCpuRes : Except PyErr FWModelO

/-- create_engine: select the variant by the lowercased type tag - an
unrecognized tag is logged as a warning and silently replaced by a
FasterWhisperEngine - then load the model when model_path is nonempty.
A load failure propagates out of create_engine. -/
def createEngine (engineType modelPath : String) (ctx : LoadCtx) : Except PyErr Engine :=
  let t := pyLower engineType
  let eng : Engine :=
    if t = "faster-whisper" then .fw fwInit
    else if t = "whisper" then .whisper whisperInit
    else if t = "dummy" then .dummy dummyInit
    else .fw fwInit
  if modelPath = "" then .ok eng
  else
    match eng with
    | .dummy e => .ok (.dummy (dummyLoadModel e))
    | .whisper e =>
      match whisperLoadModel ctx.whisperImportOk ctx.whisperLoadRes e with
      | (e1, none) => .ok (.whisper e1)
      | (_, some ex) => .error ex
    | .fw e =>
      match fwLoadModel ctx.fwImportOk ctx.fwGpuRes ctx.fwCpuRes modelPath e with
      | (e1, none) => .ok (.fw e1)
      | (_, some ex) => .error ex

/-! ## core/audio_capture.py -/

/-- The chunk size of the capture loops: sample_rate // 10 frames (100 ms). -/
def chunkSize (sampleRate : ℕ) : ℕ := sampleRate / 10

/-- The body of AudioCapture._record: while the recording flag is set and
fewer than max_samples frames have been recorded, read one chunk of
sample_rate // 10 frames and append it.  The flags list supplies the value of
self._recording observed at each iteration (true until stop_recording clears
it; the list running out models the loop being abandoned by the join
timeout or an exception, which returns whatever was captured).  The result is
the total number of frames accumulated, which is the length of the buffer
np.concatenate returns from stop_recording. -/
def recordLoop (c maxSamples : ℕ) : List Bool → ℕ → ℕ
  | [], s => s
  | f :: rest, s =>
    if f = true ∧ s < maxSamples then recordLoop c maxSamples rest (s + c) else s

/-- Length of the buffer a start/stop capture session returns, for sample
rate R, max_duration M and the given recording-flag trace. -/
def recordedLen (sampleRate maxDuration : ℕ) (flags : List Bool) : ℕ :=
  recordLoop (chunkSize sampleRate) (sampleRate * maxDuration) flags 0

/-- The loop of AudioCapture.record_until_silence: while the consecutive
silence count is below silenceSamples, read a chunk of c frames, append it,
update the silence count (reset on a loud chunk, increased by the chunk
length on a silent one), and break once chunks * c reaches maxSamples.
chunksSilent supplies, for each chunk the device would deliver, whether its
RMS is below the threshold; the list running out models a device exception,
which is caught and returns what was captured.  The result is the number of
chunks appended. -/
def rusLoop (c maxSamples silenceSamples : ℕ) : List Bool → ℕ → ℕ → ℕ
  | [], _, n => n
  | b :: rest, cs, n =>
    if cs < silenceSamples then
      let cs1 := if b = true then cs + c else 0
      if (n + 1) * c ≥ maxSamples then n + 1
      else rusLoop c maxSamples silenceSamples rest cs1 (n + 1)
    else n

/-- Length of the buffer record_until_silence returns: every chunk holds
sample_rate // 10 frames. -/
def rusRecordedLen (sampleRate maxDuration silenceSamples : ℕ)
    (chunksSilent : List Bool) : ℕ :=
  rusLoop (chunkSize sampleRate) (sampleRate * maxDuration) silenceSamples chunksSilent 0 0
    * chunkSize sampleRate

/-! ## output/keyboard.py -/

/-- An OS-level output action attempted by a sink: a keystroke-synthesis call
(pynput controller.type) or a clipboard write (pyperclip.copy). -/
inductive OsCall where
  | typed : String → OsCall
  | clip : String → OsCall
deriving DecidableEq, Repr

/-- KeyboardHandler state: whether pynput imported successfully. -/
structure KeyboardH where
  available : Bool
deriving DecidableEq, Repr

/-- KeyboardHandler.send_text.  typeRes is the outcome of the
controller.type call, should it be reached.  Returns the boolean result and
the list of OS-level calls attempted.  Unavailability is checked before the
empty-text check and yields false; empty text yields true with no OS call;
a failing type call is caught and yields false. -/
def kbSendText (h : KeyboardH) (typeRes : Except PyErr Unit) (text : String) :
    Bool × List OsCall :=
  if h.available = false then (false, [])
  else if text = "" then (true, [])
  else
    match typeRes with
    | .ok _ => (true, [.typed text])
    | .error _ => (false, [.typed text])

/-- ClipboardHandler state: whether pyperclip imported successfully. -/
structure ClipboardH where
  available : Bool
deriving DecidableEq, Repr

/-- ClipboardHandler.send_text, with the same shape as the keyboard sink. -/
def cbSendText (h : ClipboardH) (copyRes : Except PyErr Unit) (text : String) :
    Bool × List OsCall :=
  if h.available = false then (false, [])
  else if text = "" then (true, [])
  else
    match copyRes with
    | .ok _ => (true, [.clip text])
    | .error _ => (false, [.clip text])

/-- A sink held by CompositeHandler (the factory builds composites of
keyboard and clipboard sinks), paired for each send with the oracle outcome
of its OS call. -/
inductive LeafSink where
  | kb : KeyboardH → LeafSink
  | cb : ClipboardH → LeafSink

/-- is_available of a held sink. -/
def leafAvailable : LeafSink → Bool
  | .kb h => h.available
  | .cb h => h.available

/-- send_text of a held sink. -/
def leafSend (s : LeafSink) (osRes : Except PyErr Unit) (text : String) :
    Bool × List OsCall :=
  match s with
  | .kb h => kbSendText h osRes text
  | .cb h => cbSendText h osRes text

/-- The loop of CompositeHandler.send_text over the held sinks: each
available sink is delegated to; the success flag is the disjunction of the
delegated results.  Returns the flag, the attempted OS calls, and the number
of delegated send_text calls. -/
def compSendLoop (text : String) :
    List (LeafSink × Except PyErr Unit) → Bool → Bool × List OsCall × ℕ
  | [], success => (success, [], 0)
  | (s, osRes) :: rest, success =>
    if leafAvailable s = true then
      let r := leafSend s osRes text
      let rec0 := compSendLoop text rest (success || r.1)
      (rec0.1, r.2 ++ rec0.2.1, rec0.2.2 + 1)
    else compSendLoop text rest success

/-- CompositeHandler.send_text: false when no handlers are held, otherwise
the loop over the held sinks.  Returns the result, the attempted OS calls and
the number of held-sink send_text invocations (delegations). -/
def compSendText (subs : List (LeafSink × Except PyErr Unit)) (text : String) :
    Bool × List OsCall × ℕ :=
  match subs with
  | [] => (false, [], 0)
  | _ :: _ => compSendLoop text subs false

/-- CompositeHandler.is_available: true when some held sink is available. -/
def compAvailable (subs : List LeafSink) : Bool :=
  subs.any leafAvailable

/-! ## service.py -/

/-- Events recorded by the embedded trigger callback: which component calls
it performs and which log paths it takes. -/
inductive SvcEv where
  | dropped
  | stopCalled
  | startCalled
  | transcribeCalled
  | sendCalled
  | malfunctionLogged
  | errorLogged
deriving DecidableEq, Repr

/-- The orchestrator state touched by the trigger callback. -/
structure SvcState where
  processing : Bool
  transcriptionCount : ℕ
  errorCount : ℕ
deriving DecidableEq, Repr

/-- Oracle outcomes of the component calls one trigger invocation can make:
the audio-session state observed, the results of stop_recording,
start_recording, engine.transcribe and output_handler.send_text (each either
a value or a raised exception). -/
structure TriggerEnv where
  isRecording : Bool
  stopRes : Except PyErr (List ℚ)
  startRes : Except PyErr Unit
  transcribeRes : Except PyErr String
  sendRes : Except PyErr Bool

/-- STTService._process_audio: count the attempt, transcribe, and on a
non-whitespace result send it; every exception from the engine or the sink is
caught here (the method itself never raises), and failures bump the error
counter. -/
def processAudio (env : TriggerEnv) (s : SvcState) : SvcState × List SvcEv :=
  let s1 := { s with transcriptionCount := s.transcriptionCount + 1 }
  match env.transcribeRes with
  | .error _ => ({ s1 with errorCount := s1.errorCount + 1 }, [.transcribeCalled, .errorLogged])
  | .ok text =>
    if text.trim ≠ "" then
      match env.sendRes with
      | .ok true => (s1, [.transcribeCalled, .sendCalled])
      | .ok false =>
        ({ s1 with errorCount := s1.errorCount + 1 },
         [.transcribeCalled, .sendCalled, .malfunctionLogged])
      | .error _ =>
        ({ s1 with errorCount := s1.errorCount + 1 },
         [.transcribeCalled, .sendCalled, .errorLogged])
    else
      ({ s1 with errorCount := s1.errorCount + 1 }, [.transcribeCalled, .malfunctionLogged])

/-- Result of one trigger callback invocation: the final orchestrator state,
the recorded events, and the exception the callback lets propagate into the
hotkey listener, if any. -/
structure TriggerResult where
  state : SvcState
  events : List SvcEv
  raised : Option PyErr
deriving Repr

/-- The try block of STTService._on_trigger: toggle on the observed
audio-session state; harvest and process on stop, begin recording otherwise.
Returns the state, the events, and the exception the block raises, if any. -/
def onTriggerTry (env : TriggerEnv) (s : SvcState) : SvcState × List SvcEv × Option PyErr :=
  if env.isRecording = true then
    match env.stopRes with
    | .ok buf =>
      if buf.length > 0 then
        let r := processAudio env s
        (r.1, .stopCalled :: r.2, none)
      else (s, [.stopCalled, .malfunctionLogged], none)
    | .error ex => (s, [.stopCalled], some ex)
  else
    match env.startRes with
    | .ok _ => (s, [.startCalled], none)
    | .error ex => (s, [.startCalled], some ex)

/-- STTService._on_trigger: drop the event when the processing flag is set;
otherwise set the flag, run the try block, catch any exception it raises
(except Exception, which covers every error the components raise), and clear
the flag in the finally clause on every exit path.  The callback itself never
lets an exception propagate, so the raised field is always none. -/
def onTrigger (env : TriggerEnv) (s : SvcState) : TriggerResult :=
  if s.processing = true then ⟨s, [.dropped], none⟩
  else
    let s1 := { s with processing := true }
    let r := onTriggerTry env s1
    let evs := match r.2.2 with
      | none => r.2.1
      | some _ => r.2.1 ++ [.errorLogged]
    ⟨{ r.1 with processing := false }, evs, none⟩

/-! ### The two-statement busy guard, at instruction granularity

The guard of _on_trigger is two separate Python statements: the test
(line 141, if self._processing: return) and the assignment (line 145,
self._processing = True).  The callback runs on the hotkey listener thread,
so two near-simultaneous firings are two concurrent executions of this
statement list.  The machine below makes each statement one atomic step and
interleaves two executions under an arbitrary schedule. -/

/-- The statements of _on_trigger relevant to the guard: the busy test, the
busy assignment, the cycle body (observing the session and acting on it), and
the finally clause clearing the flag. -/
inductive TStep where
  | checkBusy
  | setBusy
  | workCycle
  | clearBusy
deriving DecidableEq, Repr

/-- Shared service state for the interleaved executions: the processing flag
and the number of cycles that entered the body (started observing and
toggling the audio session). -/
structure ConcState where
  flag : Bool
  cycles : ℕ
deriving DecidableEq, Repr

/-- One atomic step of one thread: the busy test returns (dropping the rest
of the program) when the flag is set, the other statements update the shared
state. -/
def concStep (sh : ConcState) : List TStep → ConcState × List TStep
  | [] => (sh, [])
  | .checkBusy :: rest => if sh.flag = true then (sh, []) else (sh, rest)
  | .setBusy :: rest => ({ sh with flag := true }, rest)
  | .workCycle :: rest => ({ sh with cycles := sh.cycles + 1 }, rest)
  | .clearBusy :: rest => ({ sh with flag := false }, rest)

/-- Run two threads, each executing its remaining statement list, under a
schedule (false picks thread zero, true picks thread one). -/
def concRun : List Bool → ConcState → List TStep → List TStep → ConcState
  | [], sh, _, _ => sh
  | pick :: sched, sh, t0, t1 =>
    if pick = true then
      let r := concStep sh t1
      concRun sched r.1 t0 r.2
    else
      let r := concStep sh t0
      concRun sched r.1 r.2 t1

/-- The statement list of one _on_trigger invocation. -/
def onTriggerProg : List TStep := [.checkBusy, .setBusy, .workCycle, .clearBusy]

/-! ## Concrete oracle instances used by witnesses and counterexamples -/

/-- A trivial oracle context for create_engine calls that perform no load
(model_path empty). -/
def defaultCtx : LoadCtx :=
  ⟨true, .ok ⟨fun _ _ => .ok ""⟩, true, .ok ⟨fun _ _ => .ok []⟩, .ok ⟨fun _ _ => .ok []⟩⟩

/-- An oracle environment in which every component call succeeds. -/
def okEnv : TriggerEnv := ⟨false, .ok [], .ok (), .ok "", .ok true⟩

/-- An oracle environment whose transcription call raises a MemoryError
while recording is in progress with a non-empty harvested buffer. -/
def raisingEnv : TriggerEnv :=
  ⟨true, .ok [1], .ok (), .error ⟨.memoryError, "boom"⟩, .ok true⟩

/-- A whisper model oracle that always raises a memory-allocation failure. -/
def memFailFn : List ℚ → Option String → Except PyErr String :=
  fun _ _ => .error ⟨.runtimeError, "failed to allocate memory"⟩

/-- A whisper model oracle raising a failure whose message mentions no
memory problem. -/
def otherFailFn : List ℚ → Option String → Except PyErr String :=
  fun _ _ => .error ⟨.runtimeError, "tensor shape mismatch"⟩

/-! ## Helper lemmas -/

lemma le_foldl_max (l : List ℚ) : ∀ x : ℚ, x ≤ l.foldl max x := by
  induction l with
  | nil => intro x; simp
  | cons b t ih =>
    intro x
    simp only [List.foldl]
    exact le_trans (le_max_left x b) (ih (max x b))

lemma mem_le_foldl_max (l : List ℚ) : ∀ x y : ℚ, y ∈ x :: l → y ≤ l.foldl max x := by
  induction l with
  | nil =>
    intro x y hy
    simp only [List.mem_singleton] at hy
    simp [hy]
  | cons b t ih =>
    intro x y hy
    simp only [List.foldl]
    rcases List.mem_cons.mp hy with rfl | h
    · exact le_trans (le_max_left y b) (le_foldl_max t (max y b))
    · rcases List.mem_cons.mp h with rfl | h2
      · exact le_trans (le_max_right x y) (le_foldl_max t (max x y))
      · exact ih (max x b) y (List.mem_cons.mpr (Or.inr h2))

lemma foldl_min_le (l : List ℚ) : ∀ x : ℚ, l.foldl min x ≤ x := by
  induction l with
  | nil => intro x; simp
  | cons b t ih =>
    intro x
    simp only [List.foldl]
    exact le_trans (ih (min x b)) (min_le_left x b)

lemma foldl_min_le_mem (l : List ℚ) : ∀ x y : ℚ, y ∈ x :: l → l.foldl min x ≤ y := by
  induction l with
  | nil =>
    intro x y hy
    simp only [List.mem_singleton] at hy
    simp [hy]
  | cons b t ih =>
    intro x y hy
    simp only [List.foldl]
    rcases List.mem_cons.mp hy with rfl | h
    · exact le_trans (foldl_min_le t (min y b)) (min_le_left y b)
    · rcases List.mem_cons.mp h with rfl | h2
      · exact le_trans (foldl_min_le t (min x y)) (min_le_right x y)
      · exact ih (min x b) y (List.mem_cons.mpr (Or.inr h2))

lemma npElems_scalarDiv (a : NpArray) (q : ℚ) :
    npElems (npScalarDiv a q) = (npElems a).map (· / q) := by
  cases a with
  | one l => rfl
  | two ls =>
    simp [npElems, npScalarDiv, List.map_flatten]

lemma recordLoop_le (c maxS : ℕ) :
    ∀ (flags : List Bool) (s : ℕ), s ≤ maxS + c → recordLoop c maxS flags s ≤ maxS + c := by
  intro flags
  induction flags with
  | nil => intro s h; simpa [recordLoop] using h
  | cons f rest ih =>
    intro s h
    simp only [recordLoop]
    split
    · next hcond => exact ih (s + c) (Nat.add_le_add_right (Nat.le_of_lt hcond.2) c)
    · exact h

lemma recordLoop_le_of_dvd (c maxS : ℕ) (hd : c ∣ maxS) :
    ∀ (flags : List Bool) (s : ℕ), c ∣ s → s ≤ maxS → recordLoop c maxS flags s ≤ maxS := by
  intro flags
  induction flags with
  | nil => intro s _ h; simpa [recordLoop] using h
  | cons f rest ih =>
    intro s hds h
    simp only [recordLoop]
    split
    · next hcond =>
      apply ih (s + c) (Nat.dvd_add hds (dvd_refl c))
      obtain ⟨a, ha⟩ := hds
      obtain ⟨b, hb⟩ := hd
      rcases Nat.eq_zero_or_pos c with hc | hc
      · subst hc
        simp [ha]
      · subst ha hb
        have hab : a < b := Nat.lt_of_mul_lt_mul_left hcond.2
        calc c * a + c = c * (a + 1) := by ring
          _ ≤ c * b := Nat.mul_le_mul_left c (Nat.succ_le_of_lt hab)
    · exact h

lemma rusLoop_le (c maxS ss : ℕ) :
    ∀ (chunks : List Bool) (cs n : ℕ),
      n * c ≤ maxS → rusLoop c maxS ss chunks cs n * c ≤ maxS + c := by
  intro chunks
  induction chunks with
  | nil => intro cs n h; exact le_trans h (Nat.le_add_right _ _)
  | cons b rest ih =>
    intro cs n h
    simp only [rusLoop]
    split
    · split
      · next hbreak =>
        calc (n + 1) * c = n * c + c := by ring
          _ ≤ maxS + c := Nat.add_le_add_right h c
      · next hno =>
        exact ih _ (n + 1) (Nat.le_of_lt (Nat.lt_of_not_le hno))
    · exact le_trans h (Nat.le_add_right _ _)

lemma leafSend_empty (s : LeafSink) (o : Except PyErr Unit) :
    leafSend s o "" = (leafAvailable s, []) := by
  cases s with
  | kb h =>
    cases hav : h.available <;> simp [leafSend, kbSendText, leafAvailable, hav]
  | cb h =>
    cases hav : h.available <;> simp [leafSend, cbSendText, leafAvailable, hav]

lemma compSendLoop_empty :
    ∀ (subs : List (LeafSink × Except PyErr Unit)) (acc : Bool),
      compSendLoop "" subs acc =
        (acc || subs.any (fun p => leafAvailable p.1), [],
         subs.countP (fun p => leafAvailable p.1)) := by
  intro subs
  induction subs with
  | nil => intro acc; simp [compSendLoop]
  | cons p rest ih =>
    intro acc
    obtain ⟨s, o⟩ := p
    by_cases hav : leafAvailable s = true
    · simp [compSendLoop, hav, leafSend_empty, ih, List.countP_cons, Bool.or_assoc]
    · simp only [Bool.not_eq_true] at hav
      simp [compSendLoop, hav, ih, List.countP_cons]

/-- Every sample that WhisperEngine delivers to its model lies in [-1, 1]:
either no sample of the (truncated) buffer is outside that range, or the
buffer is divided by its maximal absolute value. -/
theorem whisperPreprocess_bounds (a : NpArray) (out : List ℚ)
    (h : whisperPreprocess a = .ok out) : ∀ x ∈ out, -1 ≤ x ∧ x ≤ 1 := by
  unfold whisperPreprocess at h
  cases helems : npElems (npTake whisperMaxSamples a) with
  | nil => simp [npMax, helems] at h
  | cons x0 xs =>
    simp only [npMax, npMin, helems] at h
    rw [Except.ok.injEq] at h
    intro x hx
    rw [← h] at hx
    by_cases hcond : xs.foldl max x0 > 1 ∨ xs.foldl min x0 < -1
    · rw [if_pos hcond] at hx
      rw [npFlatten, npElems_scalarDiv, helems] at hx
      obtain ⟨y, hy, hxy⟩ := List.mem_map.mp hx
      have hyle : y ≤ xs.foldl max x0 := mem_le_foldl_max xs x0 y hy
      have hyge : xs.foldl min x0 ≤ y := foldl_min_le_mem xs x0 y hy
      set m : ℚ := max |xs.foldl max x0| |xs.foldl min x0| with hm
      have hm1 : (1 : ℚ) < m := by
        rcases hcond with hc | hc
        · exact lt_of_lt_of_le hc (le_trans (le_abs_self _) (le_max_left _ _))
        · have : (1 : ℚ) < -(xs.foldl min x0) := by linarith
          exact lt_of_lt_of_le this (le_trans (neg_le_abs _) (le_max_right _ _))
      have hmpos : (0 : ℚ) < m := lt_trans one_pos hm1
      have hyabs : |y| ≤ m := by
        rw [abs_le]
        constructor
        · have h1 : -m ≤ -|xs.foldl min x0| := neg_le_neg (le_max_right _ _)
          have h2 : -|xs.foldl min x0| ≤ xs.foldl min x0 := neg_abs_le _
          linarith
        · exact le_trans hyle (le_trans (le_abs_self _) (le_max_left _ _))
      have habs : |x| ≤ 1 := by
        rw [← hxy, abs_div, abs_of_pos hmpos]
        exact (div_le_one hmpos).mpr hyabs
      exact abs_le.mp habs
    · rw [if_neg hcond] at hx
      push_neg at hcond
      rw [npFlatten, helems] at hx
      have hle : x ≤ xs.foldl max x0 := mem_le_foldl_max xs x0 x hx
      have hge : xs.foldl min x0 ≤ x := foldl_min_le_mem xs x0 x hx
      exact ⟨le_trans hcond.2 hge, le_trans hle hcond.1⟩

/-- The sample list WhisperEngine delivers for a two-dimensional buffer is
the flattening of the (truncated, possibly rescaled) frames: its length is
the total element count, not the frame count a mean-downmix would produce. -/
theorem whisperPreprocess_two_length (ls : List (List ℚ)) (out : List ℚ)
    (h : whisperPreprocess (.two ls) = .ok out) :
    out.length = ((ls.take whisperMaxSamples).map List.length).sum := by
  unfold whisperPreprocess at h
  cases helems : npElems (npTake whisperMaxSamples (.two ls)) with
  | nil => simp [npMax, helems] at h
  | cons x0 xs =>
    simp only [npMax, npMin, helems] at h
    rw [Except.ok.injEq] at h
    rw [← h]
    by_cases hcond : xs.foldl max x0 > 1 ∨ xs.foldl min x0 < -1
    · rw [if_pos hcond]
      simp [npFlatten, npTake, npElems, npScalarDiv, List.map_map, Function.comp_def,
        List.length_map]
    · rw [if_neg hcond]
      simp [npFlatten, npTake, npElems]

/-! ## Claim theorems -/


/-- C1, counterexample: the claim says an unrecognized engine-type tag makes
backend construction fail with a descriptive error and is never silently
substituted.  On the concrete unrecognized tag "mystery-engine" (with the
empty default model path used by service initialization), create_engine
succeeds and returns a FasterWhisperEngine: no error, silent substitution. -/
theorem C1_unknown_engine_counterexample :
    createEngine "mystery-engine" "" defaultCtx = .ok (.fw fwInit) := by
  rfl

/-- C1, amended: for every engine-type tag whose lowercasing is none of
"faster-whisper", "whisper" and "dummy", create_engine with an empty model
path does not fail: it logs a warning and silently returns a fresh
FasterWhisperEngine in place of the requested backend. -/
theorem C1_unknown_engine_amended (t : String) (ctx : LoadCtx)
    (h1 : pyLower t ≠ "faster-whisper") (h2 : pyLower t ≠ "whisper")
    (h3 : pyLower t ≠ "dummy") :
    createEngine t "" ctx = .ok (.fw fwInit) := by
  unfold createEngine
  simp [h1, h2, h3]

/-- C1, witness: the amended theorem applied to the concrete unrecognized
tag "not-a-backend". -/
theorem C1_unknown_engine_witness :
    createEngine "not-a-backend" "" defaultCtx = .ok (.fw fwInit) :=
  C1_unknown_engine_amended "not-a-backend" defaultCtx (by decide) (by decide) (by decide)

/-- C2, counterexample: the claim says the busy flag is tested and set as a
single atomic step, so two near-simultaneous trigger firings yield exactly
one active cycle.  In the source the test (line 141) and the set (line 145)
are two separate statements; interleaving two invocations of that statement
list so that both tests run before either set (the explicit schedule below)
makes both invocations enter the body: two active cycles, not one. -/
theorem C2_single_flight_counterexample :
    (concRun [false, true, false, false, false, true, true, true]
      ⟨false, 0⟩ onTriggerProg onTriggerProg).cycles = 2 ∧
    (concRun [false, true, false, false, false, true, true, true]
      ⟨false, 0⟩ onTriggerProg onTriggerProg).cycles ≠ 1 := by
  constructor
  · rfl
  · decide

/-- C2, amended: when the trigger callback observes the busy flag set, the
event is dropped entirely - the state is unchanged, the only event is the
logged drop, nothing is started, stopped, transcribed or sent, and nothing
is raised.  However, the flag is tested and set in two separate statements
rather than one atomic test-and-set, so there exists an interleaving of two
near-simultaneous firings in which both pass the test and two cycles run
concurrently. -/
theorem C2_busy_drop_amended :
    (∀ (env : TriggerEnv) (s : SvcState), s.processing = true →
      onTrigger env s = ⟨s, [.dropped], none⟩)
    ∧ ∃ sched : List Bool,
        (concRun sched ⟨false, 0⟩ onTriggerProg onTriggerProg).cycles = 2 := by
  constructor
  · intro env s h
    simp [onTrigger, h]
  · exact ⟨[false, true, false, false, false, true, true, true], by rfl⟩


/-- C2, witness: the amended drop behaviour at a concrete busy state. -/
theorem C2_busy_drop_witness :
    onTrigger okEnv ⟨true, 3, 1⟩ = ⟨⟨true, 3, 1⟩, [.dropped], none⟩ :=
  C2_busy_drop_amended.1 okEnv ⟨true, 3, 1⟩ rfl

/-- C3: the trigger callback never lets an exception propagate into the
hotkey listener (every oracle outcome, including raising stop, start,
transcribe and send calls, is quantified over), and on every invocation that
enters a cycle (entry flag clear) the busy flag is false again on every exit
path, the exceptional ones included. -/
theorem C3_trigger_callback_safe (env : TriggerEnv) (s : SvcState) :
    (onTrigger env s).raised = none ∧
    (s.processing = false → ((onTrigger env s).state).processing = false) := by
  constructor
  · by_cases h : s.processing = true
    · simp [onTrigger, h]
    · simp only [onTrigger, h]
      simp
  · intro h
    simp only [onTrigger, h]
    simp


/-- C3, witness: the safety theorem at a concrete environment whose engine
call raises. -/
theorem C3_trigger_callback_witness :
    (onTrigger raisingEnv ⟨false, 0, 0⟩).raised = none ∧
    ((onTrigger raisingEnv ⟨false, 0, 0⟩).state).processing = false :=
  ⟨(C3_trigger_callback_safe raisingEnv ⟨false, 0, 0⟩).1,
   (C3_trigger_callback_safe raisingEnv ⟨false, 0, 0⟩).2 rfl⟩

/-- C4, counterexample: the claim says every returned buffer has length at
most sample_rate * max_duration.  With sample_rate 16001 and max_duration 1,
continuous capture (eleven loop iterations with the recording flag held)
returns 11 chunks of 1600 frames = 17600 samples, exceeding 16001: the loop
tests the cap only before reading a whole 100 ms chunk. -/
theorem C4_buffer_cap_counterexample :
    recordedLen 16001 1 (List.replicate 11 true) = 17600 ∧
    16001 * 1 < recordedLen 16001 1 (List.replicate 11 true) := by
  constructor
  · rfl
  · decide

/-- C4, amended: a capture session's returned buffer never exceeds
sample_rate * max_duration plus one chunk (sample_rate / 10 frames, the
100 ms read size), on both the start/stop path and record_until_silence;
and on the start/stop path the original R * M bound does hold whenever the
chunk size divides R * M (in particular for every sample rate divisible
by 10, such as the 16000 default). -/
theorem C4_buffer_cap_amended :
    (∀ (r m : ℕ) (flags : List Bool),
      recordedLen r m flags ≤ r * m + chunkSize r)
    ∧ (∀ (r m ss : ℕ) (chunksSilent : List Bool),
      rusRecordedLen r m ss chunksSilent ≤ r * m + chunkSize r)
    ∧ (∀ (r m : ℕ) (flags : List Bool), chunkSize r ∣ r * m →
      recordedLen r m flags ≤ r * m) := by
  refine ⟨?_, ?_, ?_⟩
  · intro r m flags
    exact recordLoop_le (chunkSize r) (r * m) flags 0 (Nat.zero_le _)
  · intro r m ss chunksSilent
    exact rusLoop_le (chunkSize r) (r * m) ss chunksSilent 0 0 (by simp)
  · intro r m flags hd
    exact recordLoop_le_of_dvd (chunkSize r) (r * m) hd flags 0 (dvd_zero _) (Nat.zero_le _)

/-- C4, witness: the amended bounds at concrete inputs; at the default rate
16000 the divisibility case recovers the R * M bound. -/
theorem C4_buffer_cap_witness :
    recordedLen 16001 1 (List.replicate 11 true) ≤ 16001 * 1 + chunkSize 16001 ∧
    rusRecordedLen 16000 1 8000 (List.replicate 20 false) ≤ 16000 * 1 + chunkSize 16000 ∧
    recordedLen 16000 1 (List.replicate 11 true) ≤ 16000 * 1 :=
  ⟨C4_buffer_cap_amended.1 16001 1 (List.replicate 11 true),
   C4_buffer_cap_amended.2.1 16000 1 8000 (List.replicate 20 false),
   C4_buffer_cap_amended.2.2 16000 1 (List.replicate 11 true) (by decide)⟩

/-- C5: transcribe on a not-ready backend raises and never returns a result:
DummyEngine and WhisperEngine raise RuntimeError (model not loaded);
FasterWhisperEngine raises as well (the AttributeError of its first
statement, compare C6). -/
theorem C5_not_ready_transcribe_raises :
    (∀ (e : DummyE) (a : Option NpArray) (l : Option String), dummyIsReady e = false →
      (dummyTranscribe e a l).2 = .error ⟨.runtimeError, "Model not loaded"⟩)
    ∧ (∀ (e : WhisperE) (a : NpArray) (l : Option String), whisperIsReady e = false →
      whisperTranscribe e a l = .error ⟨.runtimeError, "Whisper model not loaded"⟩)
    ∧ (∀ (e : FWEngine) (a : NpArray) (l : Option String), fwIsReady e = false →
      ∃ ex : PyErr, fwTranscribe e a l = .error ex) := by
  refine ⟨?_, ?_, ?_⟩
  · intro e a l h
    simp [dummyTranscribe, dummyIsReady] at h ⊢
    simp [h]
  · intro e a l h
    simp only [whisperIsReady] at h
    unfold whisperTranscribe
    rw [h]
  · intro e a l _
    exact ⟨fwAttrError, rfl⟩

/-- C5, witness: the theorem at fresh (never loaded) engines. -/
theorem C5_not_ready_transcribe_witness :
    (dummyTranscribe dummyInit none none).2 = .error ⟨.runtimeError, "Model not loaded"⟩ ∧
    whisperTranscribe whisperInit (.one []) none =
      .error ⟨.runtimeError, "Whisper model not loaded"⟩ ∧
    ∃ ex : PyErr, fwTranscribe fwInit (.one []) none = .error ex :=
  ⟨C5_not_ready_transcribe_raises.1 dummyInit none none rfl,
   C5_not_ready_transcribe_raises.2.1 whisperInit (.one []) none rfl,
   C5_not_ready_transcribe_raises.2.2 fwInit (.one []) none rfl⟩

/-- C6: every call of FasterWhisperEngine.transcribe, on every engine state
(model loaded or not), every buffer and every language, raises the
AttributeError of the undefined self._ensure_model_loaded() before reaching
inference; it can never return text. -/
theorem C6_fw_transcribe_attribute_error (e : FWEngine) (a : NpArray) (l : Option String) :
    fwTranscribe e a l = .error fwAttrError :=
  rfl


/-- C7, counterexample: the claim says a loaded model-backed backend returns
the empty string on a caught memory failure.  A loaded WhisperEngine whose
model raises an allocation failure returns the fixed non-empty marker text
instead (it does not propagate, but the result is not empty). -/
theorem C7_memory_result_counterexample :
    whisperTranscribe ⟨true, some ⟨memFailFn⟩⟩ (.one [0]) none = .ok whisperMemoryText ∧
    whisperMemoryText ≠ "" := by
  constructor
  · rfl
  · decide

/-- C7, amended: a loaded WhisperEngine never propagates an exception caught
in transcribe; on a caught memory or allocation failure it returns the fixed
non-empty marker text, and on every other caught failure it returns the
empty string.  FasterWhisperEngine's own memory handlers (which would return
the empty string) are unreachable, because its transcribe always raises the
AttributeError of its first statement. -/
theorem C7_memory_result_amended :
    (∀ (f : List ℚ → Option String → Except PyErr String) (a : NpArray)
        (l : Option String) (samples : List ℚ) (ex : PyErr),
      whisperPreprocess a = .ok samples → f samples l = .error ex →
      whisperMemMsg ex.msg = true →
      whisperTranscribe ⟨true, some ⟨f⟩⟩ a l = .ok whisperMemoryText)
    ∧ (∀ (f : List ℚ → Option String → Except PyErr String) (a : NpArray)
        (l : Option String) (samples : List ℚ) (ex : PyErr),
      whisperPreprocess a = .ok samples → f samples l = .error ex →
      whisperMemMsg ex.msg = false →
      whisperTranscribe ⟨true, some ⟨f⟩⟩ a l = .ok "")
    ∧ (∀ (f : List ℚ → Option String → Except PyErr String) (a : NpArray)
        (l : Option String), ∃ t : String, whisperTranscribe ⟨true, some ⟨f⟩⟩ a l = .ok t)
    ∧ (∀ (e : FWEngine) (a : NpArray) (l : Option String),
      fwTranscribe e a l = .error fwAttrError) := by
  refine ⟨?_, ?_, ?_, ?_⟩
  · intro f a l samples ex hp hf hm
    simp only [whisperTranscribe, hp, hf, whisperCatch, hm, if_true]
  · intro f a l samples ex hp hf hm
    simp only [whisperTranscribe, hp, hf, whisperCatch, hm]
    simp
  · intro f a l
    cases hp : whisperPreprocess a with
    | error ex =>
      refine ⟨if whisperMemMsg ex.msg = true then whisperMemoryText else "", ?_⟩
      simp only [whisperTranscribe, hp, whisperCatch]
      split <;> rfl
    | ok samples =>
      cases hf : f samples l with
      | ok t =>
        exact ⟨t.trim, by simp only [whisperTranscribe, hp, hf]⟩
      | error ex =>
        refine ⟨if whisperMemMsg ex.msg = true then whisperMemoryText else "", ?_⟩
        simp only [whisperTranscribe, hp, hf, whisperCatch]
        split <;> rfl
  · intro e a l
    rfl


/-- C7, witness: the amended behaviour at concrete loaded engines - marker
text on the allocation failure, empty string on the unrelated failure. -/
theorem C7_memory_result_witness :
    whisperTranscribe ⟨true, some ⟨memFailFn⟩⟩ (.one [0, 1]) none = .ok whisperMemoryText ∧
    whisperTranscribe ⟨true, some ⟨otherFailFn⟩⟩ (.one [0, 1]) none = .ok "" :=
  ⟨C7_memory_result_amended.1 memFailFn (.one [0, 1]) none [0, 1]
      ⟨.runtimeError, "failed to allocate memory"⟩ rfl rfl (by decide),
   C7_memory_result_amended.2.1 otherFailFn (.one [0, 1]) none [0, 1]
      ⟨.runtimeError, "tensor shape mismatch"⟩ rfl rfl (by decide)⟩

/-- C8, counterexample: the claim says multi-channel buffers are downmixed
to mono by the channel mean before inference.  WhisperEngine flattens
instead: the one-frame two-channel buffer [[0, 1]] is delivered to the model
as the two samples [0, 1], not as the one-sample channel mean [1/2]. -/
theorem C8_downmix_counterexample :
    whisperPreprocess (.two [[0, 1]]) = .ok [0, 1] ∧
    npMeanAxis1 [[0, 1]] = [1/2] ∧
    ([0, 1] : List ℚ) ≠ [1/2] := by
  refine ⟨?_, ?_, ?_⟩
  · rfl
  · norm_num [npMeanAxis1]
  · norm_num

/-- C8, amended: every sample WhisperEngine delivers to inference lies in
[-1, 1] (the buffer is divided by its maximal absolute value when any sample
is outside that range), but a multi-channel buffer is flattened
channel-interleaved, not mean-downmixed: the delivered length is the total
element count of the (truncated) frames.  The channel-mean downmix exists
only in FasterWhisperEngine's pipeline, which is unreachable (compare C6). -/
theorem C8_normalize_flatten_amended :
    (∀ (a : NpArray) (out : List ℚ), whisperPreprocess a = .ok out →
      ∀ x ∈ out, -1 ≤ x ∧ x ≤ 1)
    ∧ (∀ (ls : List (List ℚ)) (out : List ℚ), whisperPreprocess (.two ls) = .ok out →
      out.length = ((ls.take whisperMaxSamples).map List.length).sum)
    ∧ (∀ ls : List (List ℚ), npShape1 ls ≠ 1 → fwMono (.two ls) = .one (npMeanAxis1 ls)) := by
  refine ⟨whisperPreprocess_bounds, whisperPreprocess_two_length, ?_⟩
  intro ls h
  simp [fwMono, h]

/-- C8, witness: the amended facts at concrete inputs - the delivered
samples of the two-channel frame [[0, 1]] are in range, their number is the
flattened element count two, and the faster-whisper mono conversion is the
channel mean. -/
theorem C8_normalize_flatten_witness :
    (∀ x ∈ ([0, 1] : List ℚ), -1 ≤ x ∧ x ≤ 1) ∧
    ([0, 1] : List ℚ).length = (([[(0 : ℚ), 1]].take whisperMaxSamples).map List.length).sum ∧
    fwMono (.two [[0, 1]]) = .one (npMeanAxis1 [[0, 1]]) :=
  ⟨C8_normalize_flatten_amended.1 (.two [[0, 1]]) [0, 1] rfl,
   C8_normalize_flatten_amended.2.1 [[0, 1]] [0, 1] rfl,
   C8_normalize_flatten_amended.2.2 [[0, 1]] (by decide)⟩

/-- C9, counterexample: the claim says send of the empty string returns true
for every sink variant in every state.  An unavailable KeyboardHandler
returns false on the empty string (the availability check precedes the
empty-text check), and a CompositeHandler holding no sinks returns false as
well; neither performs an OS-level action. -/
theorem C9_empty_send_counterexample :
    kbSendText ⟨false⟩ (.ok ()) "" = (false, []) ∧
    compSendText [] "" = (false, [], 0) :=
  ⟨rfl, rfl⟩

/-- C9, amended: send of the empty string never performs an OS-level action
(no keystroke synthesis, no clipboard write) on any sink variant in any
state, and it returns true exactly when the sink is available: keyboard and
clipboard sinks return their availability flag, and the composite delegates
the empty string to each available held sink and returns true exactly when
at least one held sink is available. -/
theorem C9_empty_send_amended :
    (∀ (h : KeyboardH) (o : Except PyErr Unit), kbSendText h o "" = (h.available, []))
    ∧ (∀ (h : ClipboardH) (o : Except PyErr Unit), cbSendText h o "" = (h.available, []))
    ∧ (∀ subs : List (LeafSink × Except PyErr Unit),
        compSendText subs "" =
          (subs.any (fun p => leafAvailable p.1), [],
           subs.countP (fun p => leafAvailable p.1))) := by
  refine ⟨?_, ?_, ?_⟩
  · intro h o
    cases hav : h.available <;> simp [kbSendText, hav]
  · intro h o
    cases hav : h.available <;> simp [cbSendText, hav]
  · intro subs
    cases subs with
    | nil => rfl
    | cons p rest => simp [compSendText, compSendLoop_empty]

/-- C10: a failed model load propagates the very exception of the failing
step to the caller and leaves is_ready false when it was false: the whisper
load re-raises the load failure with the engine state unchanged, the
faster-whisper load re-raises the CPU-fallback failure without touching the
ready flag, and the dummy load cannot fail at all (it always succeeds and
readies the engine). -/
theorem C10_failed_load_not_ready :
    (∀ (iOk : Bool) (lr : Except PyErr WhisperModelO) (e : WhisperE),
      whisperIsReady e = false →
      ((whisperLoadModel iOk lr e).2).isSome = true →
      whisperIsReady (whisperLoadModel iOk lr e).1 = false)
    ∧ (∀ (iOk : Bool) (g c : Except PyErr FWModelO) (mp : String) (e : FWEngine),
      fwIsReady e = false →
      ((fwLoadModel iOk g c mp e).2).isSome = true →
      fwIsReady (fwLoadModel iOk g c mp e).1 = false)
    ∧ (∀ (e : WhisperE) (ex : PyErr), whisperLoadModel true (.error ex) e = (e, some ex))
    ∧ (∀ (e : FWEngine) (mp : String) (ex1 ex2 : PyErr),
      (fwLoadModel true (.error ex1) (.error ex2) mp e).2 = some ex2)
    ∧ (∀ e : DummyE, dummyIsReady (dummyLoadModel e) = true) := by
  refine ⟨?_, ?_, ?_, ?_, ?_⟩
  · intro iOk lr e h hs
    cases iOk with
    | false => simpa [whisperLoadModel, whisperIsReady] using h
    | true =>
      cases lr with
      | ok m => simp [whisperLoadModel] at hs
      | error ex => simpa [whisperLoadModel, whisperIsReady] using h
  · intro iOk g c mp e h hs
    cases iOk with
    | false => simpa [fwLoadModel, fwIsReady] using h
    | true =>
      cases g with
      | ok m => simp [fwLoadModel] at hs
      | error ex1 =>
        cases c with
        | ok m => simp [fwLoadModel] at hs
        | error ex2 => simpa [fwLoadModel, fwIsReady] using h
  · intro e ex
    rfl
  · intro e mp ex1 ex2
    rfl
  · intro e
    rfl

/-- C10, witness: the theorem at fresh engines whose load oracles fail. -/
theorem C10_failed_load_witness :
    whisperIsReady
      (whisperLoadModel true (.error ⟨.otherError, "bad checkpoint"⟩) whisperInit).1 = false ∧
    fwIsReady
      (fwLoadModel true (.error ⟨.otherError, "no cuda"⟩)
        (.error ⟨.otherError, "no model"⟩) "base" fwInit).1 = false :=
  ⟨C10_failed_load_not_ready.1 true (.error ⟨.otherError, "bad checkpoint"⟩) whisperInit rfl rfl,
   C10_failed_load_not_ready.2.1 true (.error ⟨.otherError, "no cuda"⟩)
     (.error ⟨.otherError, "no model"⟩) "base" fwInit rfl rfl⟩
